import Mathlib

/-!
Shallow embedding of `src/temperatureConversion.ts`.

JavaScript strings are modelled as lists of Unicode code points
(`List Nat`); `null`/`undefined` string arguments are modelled by
`Option`, with `none` standing for both.  JavaScript numbers are
modelled by exact rationals `ℚ`.  The case-mapping functions
(`toUpperCase`/`toLowerCase`) are modelled on the ASCII range, which
covers every alphabetic character the module's tables and callers use;
`trim` is modelled over the ECMAScript whitespace set.
-/

/-- A JavaScript string as a list of Unicode code points. -/
abbrev JSString := List Nat

/-- Code-point list of a string literal (embedding helper). -/
def jstr (s : String) : JSString := s.data.map Char.toNat

/-- JS falsiness for a `string | null | undefined` value:
`undefined`/`null` (`none`) and the empty string are falsy. -/
def jsFalsy (s : Option JSString) : Prop := s = Option.none ∨ s = some []

instance decJsFalsy (s : Option JSString) : Decidable (jsFalsy s) := by
  unfold jsFalsy
  exact inferInstance

/-- ASCII model of `String.prototype.toUpperCase` on one code point. -/
def upperCode (c : Nat) : Nat := if 97 ≤ c ∧ c ≤ 122 then c - 32 else c

/-- ASCII model of `String.prototype.toLowerCase` on one code point. -/
def lowerCode (c : Nat) : Nat := if 65 ≤ c ∧ c ≤ 90 then c + 32 else c

/-- ECMAScript whitespace (the set trimmed by `String.prototype.trim`). -/
def wsCode (c : Nat) : Bool :=
  c == 9 || c == 10 || c == 11 || c == 12 || c == 13 || c == 32 || c == 160 ||
  c == 0x1680 || (0x2000 ≤ c && c ≤ 0x200A) || c == 0x2028 || c == 0x2029 ||
  c == 0x202F || c == 0x205F || c == 0x3000 || c == 0xFEFF

/-- `String.prototype.trim`: drop whitespace from both ends. -/
def trimList (l : JSString) : JSString :=
  ((l.dropWhile wsCode).reverse.dropWhile wsCode).reverse

/-- `replaceAll('-','_').replaceAll(' ','_')` on one code point
(`-` = 45, space = 32, `_` = 95). -/
def dashSpaceToUnderscore (c : Nat) : Nat := if c = 45 ∨ c = 32 then 95 else c

/-- The string transform inside `normalizeTemperatureUnit`:
`unit.toUpperCase().replaceAll('°', '').replaceAll('-', '_')
.replaceAll(' ', '_').trim()` (the degree sign `°` is code point 176;
each `replaceAll` pattern is a single character, so they act
pointwise). -/
def normalizeJs (u : JSString) : JSString :=
  trimList (((u.map upperCode).filter (fun c => c != 176)).map dashSpaceToUnderscore)

/-- The `NORMALIZED_UNIT_MAP` record: exact-match lookup. -/
def NORMALIZED_UNIT_MAP (s : JSString) : Option JSString :=
  if s = jstr "CELSIUS" then some (jstr "C")
  else if s = jstr "C" then some (jstr "C")
  else if s = jstr "FAHRENHEIT" then some (jstr "F")
  else if s = jstr "F" then some (jstr "F")
  else Option.none

/-- `normalizeTemperatureUnit(unit?: string | null): string | undefined`. -/
def normalizeTemperatureUnit (unit : Option JSString) : Option JSString :=
  match unit with
  | Option.none => Option.none
  | some u =>
    if u = [] then Option.none
    else
      let normalized := normalizeJs u
      some ((NORMALIZED_UNIT_MAP normalized).getD normalized)

/-- `TemperatureUnitConverter`: alias list plus to-Celsius transform. -/
structure TemperatureUnitConverter where
  units : List JSString
  toCelsius : ℚ → ℚ

/-- `TemperatureOutputConverter`: alias list plus from-Celsius transform. -/
structure TemperatureOutputConverter where
  units : List JSString
  fromCelsius : ℚ → ℚ

/-- The `temperatureFromUnits` table. -/
def temperatureFromUnits : List TemperatureUnitConverter :=
  [ { units := [jstr "C", jstr "CELSIUS", jstr "DEGREE_CELSIUS", jstr "DEGREES_CELSIUS", jstr "°C"],
      toCelsius := fun value => value },
    { units := [jstr "F", jstr "FAHRENHEIT", jstr "DEGREE_FAHRENHEIT", jstr "DEGREES_FAHRENHEIT", jstr "°F"],
      toCelsius := fun value => ((value - 32) * 5) / 9 } ]

/-- The `temperatureToUnits` table. -/
def temperatureToUnits : List TemperatureOutputConverter :=
  [ { units := [jstr "C", jstr "CELSIUS", jstr "DEGREE_CELSIUS", jstr "DEGREES_CELSIUS", jstr "°C"],
      fromCelsius := fun value => value },
    { units := [jstr "F", jstr "FAHRENHEIT", jstr "DEGREE_FAHRENHEIT", jstr "DEGREES_FAHRENHEIT", jstr "°F"],
      fromCelsius := fun value => value * (9 / 5) + 32 } ]

/-- `findFromConverter`: normalize, bail out on falsy, scan the table. -/
def findFromConverter (unit : Option JSString) : Option TemperatureUnitConverter :=
  match normalizeTemperatureUnit unit with
  | Option.none => Option.none
  | some normalized =>
    if normalized = [] then Option.none
    else temperatureFromUnits.find? (fun conv => conv.units.contains normalized)

/-- `findToConverter`: normalize, bail out on falsy, scan the table. -/
def findToConverter (unit : Option JSString) : Option TemperatureOutputConverter :=
  match normalizeTemperatureUnit unit with
  | Option.none => Option.none
  | some normalized =>
    if normalized = [] then Option.none
    else temperatureToUnits.find? (fun conv => conv.units.contains normalized)

/-- Return type of `convertTemperatureValue`:
`{ value: number; converted: boolean; unit?: 'C' | 'F' }`. -/
structure ConversionResult where
  value : ℚ
  converted : Bool
  unit : Option JSString
deriving DecidableEq, Repr

/-- `convertTemperatureValue(value, fromUnit?, toUnit?)`. -/
def convertTemperatureValue (value : ℚ) (fromUnit toUnit : Option JSString) :
    ConversionResult :=
  let normalizedFrom := normalizeTemperatureUnit fromUnit
  let normalizedTo := normalizeTemperatureUnit toUnit
  if jsFalsy normalizedTo ∨ jsFalsy normalizedFrom ∨ normalizedFrom = normalizedTo then
    { value := value, converted := false,
      unit := if normalizedFrom = some (jstr "C") ∨ normalizedFrom = some (jstr "F")
              then normalizedFrom else Option.none }
  else
    match findFromConverter normalizedFrom, findToConverter normalizedTo with
    | some fromConverter, some toConverter =>
      { value := toConverter.fromCelsius (fromConverter.toCelsius value),
        converted := true,
        unit := if normalizedTo = some (jstr "C") ∨ normalizedTo = some (jstr "F")
                then normalizedTo else Option.none }
    | _, _ =>
      { value := value, converted := false,
        unit := if normalizedFrom = some (jstr "C") ∨ normalizedFrom = some (jstr "F")
                then normalizedFrom else Option.none }

/-- `TemperatureConversionTarget = 'none' | 'celsius' | 'fahrenheit'`. -/
inductive TemperatureConversionTarget
  | none
  | celsius
  | fahrenheit
deriving DecidableEq, Repr

/-- `TemperatureDeviceConversionMode =
'follow_system' | 'none' | 'force_celsius' | 'force_fahrenheit'`. -/
inductive TemperatureDeviceConversionMode
  | follow_system
  | none
  | force_celsius
  | force_fahrenheit
deriving DecidableEq, Repr

/-- `resolveTemperatureTargetUnit(systemConversion, deviceConversion)`. -/
def resolveTemperatureTargetUnit (systemConversion : TemperatureConversionTarget)
    (deviceConversion : TemperatureDeviceConversionMode) : Option JSString :=
  if deviceConversion = TemperatureDeviceConversionMode.none then Option.none
  else if deviceConversion = TemperatureDeviceConversionMode.force_celsius then some (jstr "C")
  else if deviceConversion = TemperatureDeviceConversionMode.force_fahrenheit then some (jstr "F")
  else if systemConversion = TemperatureConversionTarget.celsius then some (jstr "C")
  else if systemConversion = TemperatureConversionTarget.fahrenheit then some (jstr "F")
  else Option.none

/-- `toTemperatureUnitSymbol(unit?: string): '°C' | '°F' | ''`. -/
def toTemperatureUnitSymbol (unit : Option JSString) : JSString :=
  let normalized := normalizeTemperatureUnit unit
  if normalized = some (jstr "C") then jstr "°C"
  else if normalized = some (jstr "F") then jstr "°F"
  else []

/-- ASCII model of `clusterName.toLowerCase()`. -/
def jsToLower (s : JSString) : JSString := s.map lowerCode

/-- The 14 Thermostat attribute names listed in `isTemperatureAttribute`. -/
def thermostatTemperatureAttributes : List JSString :=
  [ jstr "localTemperature",
    jstr "outdoorTemperature",
    jstr "occupiedHeatingSetpoint",
    jstr "occupiedCoolingSetpoint",
    jstr "unoccupiedHeatingSetpoint",
    jstr "unoccupiedCoolingSetpoint",
    jstr "absMinHeatSetpointLimit",
    jstr "absMaxHeatSetpointLimit",
    jstr "absMinCoolSetpointLimit",
    jstr "absMaxCoolSetpointLimit",
    jstr "minHeatSetpointLimit",
    jstr "maxHeatSetpointLimit",
    jstr "minCoolSetpointLimit",
    jstr "maxCoolSetpointLimit" ]

/-- `isTemperatureAttribute(clusterName, attributeName)`. -/
def isTemperatureAttribute (clusterName attributeName : JSString) : Bool :=
  let cluster := jsToLower clusterName
  if cluster = jstr "temperaturemeasurement" then attributeName == jstr "measuredValue"
  else if cluster ≠ jstr "thermostat" then false
  else thermostatTemperatureAttributes.contains attributeName

/-! ### Helper lemmas about the normalization transform -/

/-- `upperCode` is idempotent. -/
theorem upperCode_idem (c : Nat) : upperCode (upperCode c) = upperCode c := by
  unfold upperCode
  split_ifs <;> omega

/-- A code point produced by `normalizeJs`: not a lowercase ASCII letter,
not the degree sign, not a hyphen, not a space. -/
def normalChar (c : Nat) : Prop := ¬(97 ≤ c ∧ c ≤ 122) ∧ c ≠ 176 ∧ c ≠ 45 ∧ c ≠ 32

/-- Elements of `trimList l` come from `l`. -/
theorem mem_of_mem_trimList {c : Nat} {l : JSString} (h : c ∈ trimList l) : c ∈ l := by
  unfold trimList at h
  rw [List.mem_reverse] at h
  have h1 := (List.dropWhile_suffix (l := (l.dropWhile wsCode).reverse) wsCode).sublist.subset h
  rw [List.mem_reverse] at h1
  exact (List.dropWhile_suffix (l := l) wsCode).sublist.subset h1

/-- Every code point of a `normalizeJs` output is a `normalChar`. -/
theorem normalizeJs_mem {c : Nat} {u : JSString} (h : c ∈ normalizeJs u) : normalChar c := by
  unfold normalizeJs at h
  have h1 := mem_of_mem_trimList h
  rw [List.mem_map] at h1
  obtain ⟨d, hd, hdc⟩ := h1
  rw [List.mem_filter] at hd
  obtain ⟨hdm, hd176⟩ := hd
  rw [List.mem_map] at hdm
  obtain ⟨e, _, hed⟩ := hdm
  unfold dashSpaceToUnderscore at hdc
  unfold normalChar
  by_cases hds : d = 45 ∨ d = 32
  · rw [if_pos hds] at hdc
    omega
  · rw [if_neg hds] at hdc
    subst hdc
    have hne : d ≠ 176 := by simpa using hd176
    unfold upperCode at hed
    split_ifs at hed <;> omega

/-- `dropWhile` either gives `[]` or a list whose head fails the predicate. -/
theorem dropWhile_shape (p : Nat → Bool) (l : List Nat) :
    l.dropWhile p = [] ∨ ∃ a t, l.dropWhile p = a :: t ∧ p a = false := by
  induction l with
  | nil => exact Or.inl rfl
  | cons x xs ih =>
    by_cases h : p x = true
    · rw [List.dropWhile_cons, if_pos h]
      exact ih
    · rw [List.dropWhile_cons, if_neg h]
      exact Or.inr ⟨x, xs, rfl, by simpa using h⟩

/-- `dropWhile` leaves a list with a failing head unchanged. -/
theorem dropWhile_of_head_neg (p : Nat → Bool) (a : Nat) (t : List Nat) (h : p a = false) :
    (a :: t).dropWhile p = a :: t := by
  rw [List.dropWhile_cons, if_neg (by simp [h])]

/-- `dropWhile` is idempotent. -/
theorem dropWhile_idem (p : Nat → Bool) (l : List Nat) :
    (l.dropWhile p).dropWhile p = l.dropWhile p := by
  rcases dropWhile_shape p l with h | ⟨a, t, h, ha⟩
  · rw [h]
    rfl
  · rw [h]
    exact dropWhile_of_head_neg p a t ha

/-- `trimList` is idempotent. -/
theorem trimList_idem (l : JSString) : trimList (trimList l) = trimList l := by
  unfold trimList
  set a := l.dropWhile wsCode with ha
  set r := a.reverse.dropWhile wsCode with hr
  rcases hrev : r.reverse with _ | ⟨b, t⟩
  · rfl
  · obtain ⟨pre, hpre⟩ : ∃ pre, pre ++ r = a.reverse := List.dropWhile_suffix wsCode
    have haeq : a = b :: (t ++ pre.reverse) := by
      have h2 : a = r.reverse ++ pre.reverse := by
        have h3 := congrArg List.reverse hpre
        rw [List.reverse_append, List.reverse_reverse a] at h3
        exact h3.symm
      rw [h2, hrev]
      rfl
    have hb : wsCode b = false := by
      rcases dropWhile_shape wsCode l with hnil | ⟨c, s, hcs, hc⟩
      · rw [← ha] at hnil
        rw [hnil] at haeq
        exact absurd haeq (by simp)
      · rw [← ha] at hcs
        rw [hcs] at haeq
        rw [List.cons.injEq] at haeq
        rw [← haeq.1]
        exact hc
    rw [dropWhile_of_head_neg wsCode b t hb]
    have hbtr : (b :: t).reverse = r := by
      rw [← hrev, List.reverse_reverse]
    rw [hbtr, hr, dropWhile_idem, ← hr]
    exact hrev

/-- Mapping a function that fixes every element is the identity. -/
theorem map_id_of_mem {f : Nat → Nat} {l : List Nat} (h : ∀ c ∈ l, f c = c) :
    l.map f = l := by
  induction l with
  | nil => rfl
  | cons x xs ih =>
    rw [List.map_cons, h x (by simp), ih (fun c hc => h c (by simp [hc]))]

/-- `normalizeJs` is idempotent. -/
theorem normalizeJs_idem (u : JSString) : normalizeJs (normalizeJs u) = normalizeJs u := by
  have h1 : (normalizeJs u).map upperCode = normalizeJs u :=
    map_id_of_mem (fun c hc => by
      have := (normalizeJs_mem hc).1
      unfold upperCode
      rw [if_neg this])
  have h2 : ((normalizeJs u).map upperCode).filter (fun c => c != 176) = normalizeJs u := by
    rw [h1]
    exact List.filter_eq_self.mpr (fun c hc => by
      have := (normalizeJs_mem hc).2.1
      simpa using this)
  have h3 : (((normalizeJs u).map upperCode).filter (fun c => c != 176)).map
      dashSpaceToUnderscore = normalizeJs u := by
    rw [h2]
    exact map_id_of_mem (fun c hc => by
      have h45 := (normalizeJs_mem hc).2.2.1
      have h32 := (normalizeJs_mem hc).2.2.2
      unfold dashSpaceToUnderscore
      rw [if_neg (by omega)])
  show trimList ((((normalizeJs u).map upperCode).filter (fun c => c != 176)).map
      dashSpaceToUnderscore) = normalizeJs u
  rw [h3]
  show trimList (normalizeJs u) = normalizeJs u
  unfold normalizeJs
  rw [trimList_idem]

/-- `NORMALIZED_UNIT_MAP` only produces the tokens `C` and `F`. -/
theorem NORMALIZED_UNIT_MAP_range {s m : JSString} (h : NORMALIZED_UNIT_MAP s = some m) :
    m = jstr "C" ∨ m = jstr "F" := by
  unfold NORMALIZED_UNIT_MAP at h
  split_ifs at h <;> simp_all

/-- Re-normalizing a nonempty normalization output is the identity. -/
theorem normalizeTemperatureUnit_idem {u : Option JSString} {n : JSString}
    (h : normalizeTemperatureUnit u = some n) (hn : n ≠ []) :
    normalizeTemperatureUnit (some n) = some n := by
  match u with
  | Option.none => simp [normalizeTemperatureUnit] at h
  | some u0 =>
    by_cases h0 : u0 = []
    · simp [normalizeTemperatureUnit, h0] at h
    · simp only [normalizeTemperatureUnit, if_neg h0] at h
      rcases hm : NORMALIZED_UNIT_MAP (normalizeJs u0) with _ | m
      · rw [hm] at h
        simp only [Option.getD_none, Option.some.injEq] at h
        subst h
        simp only [normalizeTemperatureUnit, if_neg hn]
        rw [normalizeJs_idem, hm]
        rfl
      · rw [hm] at h
        simp only [Option.getD_some, Option.some.injEq] at h
        subst h
        rcases NORMALIZED_UNIT_MAP_range hm with hC | hF
        · rw [hC]
          decide
        · rw [hF]
          decide

/-- Passing a normalized unit back through `findFromConverter` is the same
as passing the raw unit (the flow inside `convertTemperatureValue`). -/
theorem findFromConverter_normalize (u : Option JSString) :
    findFromConverter (normalizeTemperatureUnit u) = findFromConverter u := by
  rcases h : normalizeTemperatureUnit u with _ | n
  · unfold findFromConverter
    rw [h]
    rfl
  · by_cases hn : n = []
    · subst hn
      unfold findFromConverter
      rw [h]
      simp [normalizeTemperatureUnit]
    · unfold findFromConverter
      rw [h, normalizeTemperatureUnit_idem h hn]

/-- Same as `findFromConverter_normalize`, for the output side. -/
theorem findToConverter_normalize (u : Option JSString) :
    findToConverter (normalizeTemperatureUnit u) = findToConverter u := by
  rcases h : normalizeTemperatureUnit u with _ | n
  · unfold findToConverter
    rw [h]
    rfl
  · by_cases hn : n = []
    · subst hn
      unfold findToConverter
      rw [h]
      simp [normalizeTemperatureUnit]
    · unfold findToConverter
      rw [h, normalizeTemperatureUnit_idem h hn]

/-! ### Claim theorems -/

/-- Claim C1 counterexample: `DEGREE_CELSIUS` is not a key of
`NORMALIZED_UNIT_MAP`, so `normalizeTemperatureUnit` returns it
unchanged rather than mapping it to `C`. -/
theorem normalize_degree_celsius_not_C :
    ¬(normalizeTemperatureUnit (some (jstr "DEGREE_CELSIUS")) = some (jstr "C")) := by
  decide

/-- Claim C1 (amended): the aliases `C`, `CELSIUS` and `°C` normalize to
`C`, the aliases `F`, `FAHRENHEIT` and `°F` normalize to `F`, and the
`DEGREE_`/`DEGREES_` alias forms are returned unchanged (they are
converter-table aliases but not keys of the normalization map). -/
theorem normalize_alias_table :
    normalizeTemperatureUnit (some (jstr "C")) = some (jstr "C") ∧
    normalizeTemperatureUnit (some (jstr "CELSIUS")) = some (jstr "C") ∧
    normalizeTemperatureUnit (some (jstr "°C")) = some (jstr "C") ∧
    normalizeTemperatureUnit (some (jstr "F")) = some (jstr "F") ∧
    normalizeTemperatureUnit (some (jstr "FAHRENHEIT")) = some (jstr "F") ∧
    normalizeTemperatureUnit (some (jstr "°F")) = some (jstr "F") ∧
    normalizeTemperatureUnit (some (jstr "DEGREE_CELSIUS")) = some (jstr "DEGREE_CELSIUS") ∧
    normalizeTemperatureUnit (some (jstr "DEGREES_CELSIUS")) = some (jstr "DEGREES_CELSIUS") ∧
    normalizeTemperatureUnit (some (jstr "DEGREE_FAHRENHEIT")) = some (jstr "DEGREE_FAHRENHEIT") ∧
    normalizeTemperatureUnit (some (jstr "DEGREES_FAHRENHEIT")) = some (jstr "DEGREES_FAHRENHEIT") := by
  decide

/-- Claim C2: converting any rational from Celsius to Fahrenheit and back
through `convertTemperatureValue` returns the original value exactly. -/
theorem convert_roundtrip_celsius_fahrenheit (v : ℚ) :
    (convertTemperatureValue
      (convertTemperatureValue v (some (jstr "C")) (some (jstr "F"))).value
      (some (jstr "F")) (some (jstr "C"))).value = v := by
  have h1 : (convertTemperatureValue v (some (jstr "C")) (some (jstr "F"))).value
      = v * (9 / 5) + 32 := rfl
  have h2 : ∀ w : ℚ, (convertTemperatureValue w (some (jstr "F")) (some (jstr "C"))).value
      = ((w - 32) * 5) / 9 := fun _ => rfl
  rw [h1, h2]
  ring

/-- Claim C3: the fixed points 0 °C = 32 °F, 212 °F = 100 °C and
-40 °C = -40 °F hold, and the two conversion directions compute
`(v - 32) * 5 / 9` into Celsius and `v * 9 / 5 + 32` out of Celsius. -/
theorem convert_fixed_points :
    convertTemperatureValue 0 (some (jstr "C")) (some (jstr "F")) =
      { value := 32, converted := true, unit := some (jstr "F") } ∧
    convertTemperatureValue 212 (some (jstr "F")) (some (jstr "C")) =
      { value := 100, converted := true, unit := some (jstr "C") } ∧
    convertTemperatureValue (-40) (some (jstr "C")) (some (jstr "F")) =
      { value := -40, converted := true, unit := some (jstr "F") } ∧
    (∀ v : ℚ, (convertTemperatureValue v (some (jstr "F")) (some (jstr "C"))).value
      = (v - 32) * (5 / 9)) ∧
    (∀ v : ℚ, (convertTemperatureValue v (some (jstr "C")) (some (jstr "F"))).value
      = v * (9 / 5) + 32) := by
  refine ⟨?_, ?_, ?_, ?_, fun v => rfl⟩
  · have h : convertTemperatureValue 0 (some (jstr "C")) (some (jstr "F")) =
        { value := 0 * (9 / 5) + 32, converted := true, unit := some (jstr "F") } := rfl
    rw [h]
    simp only [ConversionResult.mk.injEq]
    norm_num
  · have h : convertTemperatureValue 212 (some (jstr "F")) (some (jstr "C")) =
        { value := ((212 - 32) * 5) / 9, converted := true, unit := some (jstr "C") } := rfl
    rw [h]
    simp only [ConversionResult.mk.injEq]
    norm_num
  · have h : convertTemperatureValue (-40) (some (jstr "C")) (some (jstr "F")) =
        { value := (-40) * (9 / 5) + 32, converted := true, unit := some (jstr "F") } := rfl
    rw [h]
    simp only [ConversionResult.mk.injEq]
    norm_num
  · intro v
    have h : (convertTemperatureValue v (some (jstr "F")) (some (jstr "C"))).value
        = ((v - 32) * 5) / 9 := rfl
    rw [h]
    ring

/-- Claim C4: converting with equal source and target unit (including
`none` and unsupported strings) never converts: the value is returned
unchanged, `converted` is false, and the unit is the normalization when
it is `C` or `F` and `none` otherwise. -/
theorem convert_same_unit_identity (v : ℚ) (u : Option JSString) :
    convertTemperatureValue v u u =
      { value := v, converted := false,
        unit := if normalizeTemperatureUnit u = some (jstr "C") ∨
                  normalizeTemperatureUnit u = some (jstr "F")
                then normalizeTemperatureUnit u else Option.none } := by
  simp [convertTemperatureValue]

/-- Claim C5: whenever the source unit or the target unit has no
converter-table entry (which includes missing and unsupported units),
`convertTemperatureValue` reports `converted = false` and returns the
input value unchanged. -/
theorem convert_unsupported_never_converts (v : ℚ) (fromUnit toUnit : Option JSString)
    (h : findFromConverter fromUnit = Option.none ∨ findToConverter toUnit = Option.none) :
    (convertTemperatureValue v fromUnit toUnit).converted = false ∧
    (convertTemperatureValue v fromUnit toUnit).value = v := by
  simp only [convertTemperatureValue]
  by_cases hg : jsFalsy (normalizeTemperatureUnit toUnit) ∨
      jsFalsy (normalizeTemperatureUnit fromUnit) ∨
      normalizeTemperatureUnit fromUnit = normalizeTemperatureUnit toUnit
  · rw [if_pos hg]
    exact ⟨rfl, rfl⟩
  · rw [if_neg hg, findFromConverter_normalize fromUnit, findToConverter_normalize toUnit]
    cases hF : findFromConverter fromUnit with
    | none =>
      cases hT : findToConverter toUnit with
      | none => exact ⟨rfl, rfl⟩
      | some tc => exact ⟨rfl, rfl⟩
    | some fc =>
      cases hT : findToConverter toUnit with
      | none => exact ⟨rfl, rfl⟩
      | some tc =>
        rcases h with hf | ht
        · rw [hF] at hf
          exact absurd hf (by simp)
        · rw [hT] at ht
          exact absurd ht (by simp)

/-- Claim C5 witness: converting 10 from the unsupported unit `K` to `F`
leaves the value unchanged and unconverted. -/
theorem convert_unsupported_never_converts_witness :
    (convertTemperatureValue 10 (some (jstr "K")) (some (jstr "F"))).converted = false ∧
    (convertTemperatureValue 10 (some (jstr "K")) (some (jstr "F"))).value = 10 :=
  convert_unsupported_never_converts 10 (some (jstr "K")) (some (jstr "F")) (Or.inl rfl)

/-- Claim C6: `resolveTemperatureTargetUnit` follows the
device-overrides-system precedence table. -/
theorem resolve_target_precedence :
    ∀ (systemTarget : TemperatureConversionTarget)
      (deviceMode : TemperatureDeviceConversionMode),
      resolveTemperatureTargetUnit systemTarget deviceMode =
        match deviceMode with
        | TemperatureDeviceConversionMode.none => Option.none
        | TemperatureDeviceConversionMode.force_celsius => some (jstr "C")
        | TemperatureDeviceConversionMode.force_fahrenheit => some (jstr "F")
        | TemperatureDeviceConversionMode.follow_system =>
          match systemTarget with
          | TemperatureConversionTarget.celsius => some (jstr "C")
          | TemperatureConversionTarget.fahrenheit => some (jstr "F")
          | TemperatureConversionTarget.none => Option.none := by
  intro s d
  cases s <;> cases d <;> rfl

/-- Claim C7: `isTemperatureAttribute` is true exactly for
`measuredValue` on the TemperatureMeasurement cluster and for the fixed
14 attributes on the Thermostat cluster, comparing the cluster name
case-insensitively (via lowercasing) and the attribute name exactly. -/
theorem isTemperatureAttribute_characterization :
    (∀ (clusterName attributeName : JSString),
      isTemperatureAttribute clusterName attributeName = true ↔
        ((jsToLower clusterName = jstr "temperaturemeasurement" ∧
            attributeName = jstr "measuredValue") ∨
          (jsToLower clusterName = jstr "thermostat" ∧
            attributeName ∈ thermostatTemperatureAttributes))) ∧
    thermostatTemperatureAttributes.length = 14 := by
  refine ⟨?_, rfl⟩
  intro clusterName attributeName
  simp only [isTemperatureAttribute]
  split_ifs with h1 h2
  · rw [beq_iff_eq]
    constructor
    · intro hmv
      exact Or.inl ⟨h1, hmv⟩
    · rintro (⟨_, hmv⟩ | ⟨hth, _⟩)
      · exact hmv
      · exact absurd (h1.symm.trans hth) (by decide)
  · simp only [Bool.false_eq_true, false_iff]
    rintro (⟨htm, _⟩ | ⟨hth, _⟩)
    · exact h1 htm
    · exact h2 hth
  · have h2' : jsToLower clusterName = jstr "thermostat" := not_not.mp h2
    have hmem : thermostatTemperatureAttributes.contains attributeName = true ↔
        attributeName ∈ thermostatTemperatureAttributes := by
      simp [List.contains]
    rw [hmem]
    constructor
    · intro hc
      exact Or.inr ⟨h2', hc⟩
    · rintro (⟨htm, _⟩ | ⟨_, hmemb⟩)
      · exact absurd htm h1
      · exact hmemb

/-- Claim C8: `toTemperatureUnitSymbol` maps a unit whose normalization
is `C` to `°C`, one whose normalization is `F` to `°F`, and everything
else to the empty string; and on the `C`/`F` branch its output
normalizes back to the normalization of the input. -/
theorem toTemperatureUnitSymbol_spec (u : Option JSString) :
    (toTemperatureUnitSymbol u =
      (if normalizeTemperatureUnit u = some (jstr "C") then jstr "°C"
       else if normalizeTemperatureUnit u = some (jstr "F") then jstr "°F"
       else [])) ∧
    ((normalizeTemperatureUnit u = some (jstr "C") ∨
        normalizeTemperatureUnit u = some (jstr "F")) →
      normalizeTemperatureUnit (some (toTemperatureUnitSymbol u)) =
        normalizeTemperatureUnit u) := by
  constructor
  · rfl
  · rintro (hC | hF)
    · have hs : toTemperatureUnitSymbol u = jstr "°C" := by
        simp only [toTemperatureUnitSymbol]
        rw [if_pos hC]
      rw [hs, hC]
      decide
    · have hs : toTemperatureUnitSymbol u = jstr "°F" := by
        simp only [toTemperatureUnitSymbol]
        rw [if_neg (by rw [hF]; decide), if_pos hF]
      rw [hs, hF]
      decide

/-- Claim C8 witness: instantiated at the raw unit `fahrenheit`, whose
normalization is `F`. -/
theorem toTemperatureUnitSymbol_spec_witness :
    toTemperatureUnitSymbol (some (jstr "fahrenheit")) =
      (if normalizeTemperatureUnit (some (jstr "fahrenheit")) = some (jstr "C") then jstr "°C"
       else if normalizeTemperatureUnit (some (jstr "fahrenheit")) = some (jstr "F") then jstr "°F"
       else []) ∧
    normalizeTemperatureUnit (some (toTemperatureUnitSymbol (some (jstr "fahrenheit")))) =
      normalizeTemperatureUnit (some (jstr "fahrenheit")) :=
  ⟨(toTemperatureUnitSymbol_spec (some (jstr "fahrenheit"))).1,
   (toTemperatureUnitSymbol_spec (some (jstr "fahrenheit"))).2 (Or.inr (by decide))⟩

/-- Claim C9: `normalizeTemperatureUnit` returns `none` exactly on the
falsy inputs (`none` modelling null/undefined, and the empty string),
and on every nonempty string returns the transformed string mapped
through `NORMALIZED_UNIT_MAP` when that lookup hits, the transformed
string itself otherwise. -/
theorem normalizeTemperatureUnit_total :
    normalizeTemperatureUnit Option.none = Option.none ∧
    normalizeTemperatureUnit (some []) = Option.none ∧
    (∀ s : JSString, s ≠ [] →
      normalizeTemperatureUnit (some s) =
        some ((NORMALIZED_UNIT_MAP (normalizeJs s)).getD (normalizeJs s))) := by
  refine ⟨rfl, rfl, ?_⟩
  intro s hs
  simp only [normalizeTemperatureUnit, if_neg hs]

/-- Claim C9 witness: instantiated at the nonempty string `KELVIN`. -/
theorem normalizeTemperatureUnit_total_witness :
    normalizeTemperatureUnit (some (jstr "KELVIN")) =
      some ((NORMALIZED_UNIT_MAP (normalizeJs (jstr "KELVIN"))).getD
        (normalizeJs (jstr "KELVIN"))) :=
  normalizeTemperatureUnit_total.2.2 (jstr "KELVIN") (by decide)

/-- Claim C10: distinct aliases of the same family with different
normalizations (for example `DEGREE_CELSIUS` versus `C`, or
`degrees fahrenheit` versus `F`) do convert: `converted` is true and the
returned value equals the input exactly. -/
theorem convert_distinct_alias_same_family (v : ℚ) :
    convertTemperatureValue v (some (jstr "DEGREE_CELSIUS")) (some (jstr "C")) =
      { value := v, converted := true, unit := some (jstr "C") } ∧
    (convertTemperatureValue v (some (jstr "degrees fahrenheit")) (some (jstr "F"))).value = v ∧
    (convertTemperatureValue v (some (jstr "degrees fahrenheit")) (some (jstr "F"))).converted
      = true ∧
    (convertTemperatureValue v (some (jstr "degrees fahrenheit")) (some (jstr "F"))).unit
      = some (jstr "F") := by
  refine ⟨rfl, ?_, rfl, rfl⟩
  have h : (convertTemperatureValue v (some (jstr "degrees fahrenheit")) (some (jstr "F"))).value
      = ((v - 32) * 5) / 9 * (9 / 5) + 32 := rfl
  rw [h]
  ring
